import Mathlib

/-!
Verification of the cryptographic core of SecureChatApp.

This file gives a shallow embedding of the data model and operations of the
repository (client/src/lib/crypto.js, server/services/ussService.js,
server/services/signatureService.js, routes/ussRoutes.js and
routes/ussMessageRoutes.js) and proves or refutes the frozen claims about
them.  Platform primitives that the code calls but does not implement
(Web Crypto AES-GCM, HMAC-SHA-256, SHA-256, PBKDF2, Node's ECDSA verify)
are modelled as explicit function parameters; everything the repository
itself computes (base64 transport encoding, IV framing, key-derivation
plumbing, the lockdown state machine, passphrase scoring) is embedded
concretely.
-/

namespace SecureChat

/-- Bytes as held in the JavaScript `Uint8Array` buffers. -/
abbrev Byte := Fin 256

/-! ## Base64 transport encoding

`arrayBufferToBase64` / `base64ToUint8Array` in client/src/lib/crypto.js
convert between byte buffers and base64 text via the platform's `btoa` /
`atob`.  We embed standard unpadded-input base64 with `=` padding
concretely. -/

/-- The standard base64 alphabet used by `btoa` and `atob`. -/
def b64Alpha : List Char :=
  ['A', 'B', 'C', 'D', 'E', 'F', 'G', 'H', 'I', 'J', 'K', 'L', 'M',
   'N', 'O', 'P', 'Q', 'R', 'S', 'T', 'U', 'V', 'W', 'X', 'Y', 'Z',
   'a', 'b', 'c', 'd', 'e', 'f', 'g', 'h', 'i', 'j', 'k', 'l', 'm',
   'n', 'o', 'p', 'q', 'r', 's', 't', 'u', 'v', 'w', 'x', 'y', 'z',
   '0', '1', '2', '3', '4', '5', '6', '7', '8', '9', '+', '/']

/-- Map a six-bit group to its base64 character. -/
def sextetToChar (s : Fin 64) : Char := b64Alpha.getD s.val 'A'

/-- Map a base64 character back to its six-bit group. -/
def charToSextet (c : Char) : Fin 64 :=
  ⟨b64Alpha.indexOf c % 64, Nat.mod_lt _ (by omega)⟩

theorem charToSextet_sextetToChar : ∀ s : Fin 64, charToSextet (sextetToChar s) = s := by
  decide

theorem sextetToChar_ne_pad : ∀ s : Fin 64, sextetToChar s ≠ '=' := by
  decide

/-- Base64-encode a byte list (the computation done by `btoa` on the binary
string built in `arrayBufferToBase64`). -/
def b64EncodeCore : List Byte → List Char
  | [] => []
  | [a] =>
    [sextetToChar ⟨a.val / 4, by have := a.isLt; omega⟩,
     sextetToChar ⟨a.val % 4 * 16, by have := a.isLt; omega⟩, '=', '=']
  | [a, b] =>
    [sextetToChar ⟨a.val / 4, by have := a.isLt; omega⟩,
     sextetToChar ⟨a.val % 4 * 16 + b.val / 16, by have := a.isLt; have := b.isLt; omega⟩,
     sextetToChar ⟨b.val % 16 * 4, by have := b.isLt; omega⟩, '=']
  | a :: b :: c :: rest =>
    sextetToChar ⟨a.val / 4, by have := a.isLt; omega⟩ ::
    sextetToChar ⟨a.val % 4 * 16 + b.val / 16, by have := a.isLt; have := b.isLt; omega⟩ ::
    sextetToChar ⟨b.val % 16 * 4 + c.val / 64, by have := b.isLt; have := c.isLt; omega⟩ ::
    sextetToChar ⟨c.val % 64, by have := c.isLt; omega⟩ ::
    b64EncodeCore rest

/-- Base64-decode a character list (the computation done by `atob` inside
`base64ToUint8Array`). -/
def b64DecodeCore : List Char → List Byte
  | w :: x :: y :: z :: rest =>
    if y = '=' then
      [⟨(charToSextet w).val * 4 + (charToSextet x).val / 16,
        by have := (charToSextet w).isLt; have := (charToSextet x).isLt; omega⟩]
    else if z = '=' then
      [⟨(charToSextet w).val * 4 + (charToSextet x).val / 16,
        by have := (charToSextet w).isLt; have := (charToSextet x).isLt; omega⟩,
       ⟨(charToSextet x).val % 16 * 16 + (charToSextet y).val / 4,
        by have := (charToSextet x).isLt; have := (charToSextet y).isLt; omega⟩]
    else
      ⟨(charToSextet w).val * 4 + (charToSextet x).val / 16,
        by have := (charToSextet w).isLt; have := (charToSextet x).isLt; omega⟩ ::
      ⟨(charToSextet x).val % 16 * 16 + (charToSextet y).val / 4,
        by have := (charToSextet x).isLt; have := (charToSextet y).isLt; omega⟩ ::
      ⟨(charToSextet y).val % 4 * 64 + (charToSextet z).val,
        by have := (charToSextet y).isLt; have := (charToSextet z).isLt; omega⟩ ::
      b64DecodeCore rest
  | _ => []

/-- Model of `arrayBufferToBase64` (crypto.js lines 116-121). -/
def arrayBufferToBase64 (bytes : List Byte) : String := String.mk (b64EncodeCore bytes)

/-- Model of `base64ToUint8Array` (crypto.js lines 123-128). -/
def base64ToUint8Array (s : String) : List Byte := b64DecodeCore s.data

/-- Decoding inverts encoding on every byte list. -/
theorem b64DecodeCore_encodeCore : ∀ l : List Byte, b64DecodeCore (b64EncodeCore l) = l
  | [] => rfl
  | [a] => by
    have ha := a.isLt
    simp [b64EncodeCore, b64DecodeCore, charToSextet_sextetToChar, Fin.ext_iff]
    omega
  | [a, b] => by
    have ha := a.isLt
    have hb := b.isLt
    simp [b64EncodeCore, b64DecodeCore, charToSextet_sextetToChar,
      sextetToChar_ne_pad, Fin.ext_iff]
    omega
  | a :: b :: c :: rest => by
    have ha := a.isLt
    have hb := b.isLt
    have hc := c.isLt
    have ih := b64DecodeCore_encodeCore rest
    simp [b64EncodeCore, b64DecodeCore, charToSextet_sextetToChar,
      sextetToChar_ne_pad, Fin.ext_iff, ih]
    omega

/-- Round trip through the transport encoding used by the client. -/
theorem base64_roundtrip (bytes : List Byte) :
    base64ToUint8Array (arrayBufferToBase64 bytes) = bytes :=
  b64DecodeCore_encodeCore bytes

/-! ## Per-message key and envelope cipher (crypto.js lines 64-105)

`deriveMessageKey` HMAC-SHA-256s the decimal string of the message number
under the session key and uses the first 32 bytes as an AES-256-GCM key;
`encryptMessage` prepends a fresh 96-bit IV to the AES-GCM ciphertext and
base64-encodes; `decryptMessage` splits the decoded buffer at byte 12 and
decrypts.  HMAC-SHA-256 and AES-GCM are Web Crypto primitives and appear
as function parameters; the randomly drawn IV is an explicit argument. -/

/-- Byte of a character, as `TextEncoder` produces for ASCII text. -/
def charByte (c : Char) : Byte := ⟨c.toNat % 256, Nat.mod_lt _ (by omega)⟩

/-- UTF-8 bytes of the decimal string `String(msgNo)` fed to the HMAC. -/
def decimalBytes (msgNo : Nat) : List Byte := (toString msgNo).data.map charByte

/-- Model of `deriveMessageKey` (crypto.js lines 64-84). -/
def deriveMessageKey (hmacSha256 : List Byte → List Byte → List Byte)
    (sessionKeyRaw : List Byte) (msgNo : Nat) : List Byte :=
  (hmacSha256 sessionKeyRaw (decimalBytes msgNo)).take 32

/-- Model of `encryptMessage` (crypto.js lines 86-96).  `aesGcmEncrypt`
takes key, IV and plaintext; `iv` is the 12-byte random IV drawn inside
the function. -/
def encryptMessage (hmacSha256 : List Byte → List Byte → List Byte)
    (aesGcmEncrypt : List Byte → List Byte → List Byte → List Byte)
    (sessionKeyRaw : List Byte) (msgNo : Nat) (plaintext : List Byte)
    (iv : List Byte) : String :=
  arrayBufferToBase64 (iv ++ aesGcmEncrypt (deriveMessageKey hmacSha256 sessionKeyRaw msgNo) iv plaintext)

/-- Model of `decryptMessage` (crypto.js lines 98-105).  `aesGcmDecrypt`
returns `none` when the authentication tag fails to verify (the promise
rejection of `crypto.subtle.decrypt`). -/
def decryptMessage (hmacSha256 : List Byte → List Byte → List Byte)
    (aesGcmDecrypt : List Byte → List Byte → List Byte → Option (List Byte))
    (sessionKeyRaw : List Byte) (msgNo : Nat) (base64Cipher : String) :
    Option (List Byte) :=
  let combined := base64ToUint8Array base64Cipher
  aesGcmDecrypt (deriveMessageKey hmacSha256 sessionKeyRaw msgNo)
    (combined.take 12) (combined.drop 12)

/-! ## Deterministic session key (crypto.js lines 54-59) -/

/-- Model of `getSessionKey`: sort the two usernames (JavaScript
`[userA, userB].sort()` on a two-element string array), join with `:` and
hash with SHA-256 (a Web Crypto primitive, passed as a parameter). -/
def getSessionKey (sha256 : String → List Byte) (userA userB : String) : List Byte :=
  sha256 (String.intercalate ":" (if userA ≤ userB then [userA, userB] else [userB, userA]))

/-! ## Layered passphrase protection (crypto.js lines 303-415)

`derivePassphraseKey` derives the AES-256-GCM key for the passphrase layer
with PBKDF2-HMAC-SHA-512, 310000 iterations, 256-bit output.  `hashPassphrase`
derives the server-held verifier with the same primitive, the same salt, the
same iteration count and the same 256-bit output length (Web Crypto
`deriveKey` for an AES-256 key yields exactly the first 256 bits of the
PBKDF2 stream, i.e. the same bytes as `deriveBits(256)`).  `pbkdf2Sha512`
takes passphrase, salt, iteration count and output bit length. -/

/-- Model of `derivePassphraseKey` (crypto.js lines 303-328): the raw bytes
of the AES-GCM key derived from the passphrase. -/
def derivePassphraseKey (pbkdf2Sha512 : String → List Byte → Nat → Nat → List Byte)
    (passphrase : String) (salt : List Byte) : List Byte :=
  pbkdf2Sha512 passphrase salt 310000 256

/-- Model of `hashPassphrase` (crypto.js lines 393-415): base64 of 256 bits
derived by the same PBKDF2-SHA-512 with the same salt and iterations. -/
def hashPassphrase (pbkdf2Sha512 : String → List Byte → Nat → Nat → List Byte)
    (passphrase : String) (salt : List Byte) : String :=
  arrayBufferToBase64 (pbkdf2Sha512 passphrase salt 310000 256)

/-- Model of `decryptWithPassphrase` (crypto.js lines 369-385): derive the
passphrase key, then AES-GCM-decrypt the base64 ciphertext with the base64
IV.  `aesGcmDecrypt` takes key, IV and ciphertext. -/
def decryptWithPassphrase (pbkdf2Sha512 : String → List Byte → Nat → Nat → List Byte)
    (aesGcmDecrypt : List Byte → List Byte → List Byte → Option (List Byte))
    (encryptedBase64 ivBase64 : String) (passphrase : String) (salt : List Byte) :
    Option (List Byte) :=
  aesGcmDecrypt (derivePassphraseKey pbkdf2Sha512 passphrase salt)
    (base64ToUint8Array ivBase64) (base64ToUint8Array encryptedBase64)

/-- Attack function requiring only the stored verifier, not the passphrase:
decode the verifier from base64 and use the resulting bytes directly as the
AES-GCM key. -/
def unwrapWithVerifierOnly
    (aesGcmDecrypt : List Byte → List Byte → List Byte → Option (List Byte))
    (verifier encryptedBase64 ivBase64 : String) : Option (List Byte) :=
  aesGcmDecrypt (base64ToUint8Array verifier)
    (base64ToUint8Array ivBase64) (base64ToUint8Array encryptedBase64)

/-! ## Signature verification (server/services/signatureService.js lines 41-92)

`verifyMessageSignature` looks up the sender's stored public signing key,
then verifies with Node's ECDSA in `ieee-p1363` mode inside a `try`; if
that call throws, it retries with the DER-default `verify`; the outer
`try/catch` turns any remaining throw into `false`.  The two Node verify
calls are platform primitives and appear as `Except`-returning parameters
(`Except.error` models a throw). -/

/-- Model of `verifyMessageSignature`.  `getSigningKey` is the `users`
table lookup; `p1363Verify` is `verify.verify` with
`dsaEncoding: ieee-p1363`; `derVerify` is the plain DER-mode
`verify2.verify`. -/
def verifyMessageSignature (getSigningKey : String → Option String)
    (p1363Verify derVerify : String → String → List Byte → Except Unit Bool)
    (senderUsername message : String) (signatureBytes : List Byte) : Bool :=
  match getSigningKey senderUsername with
  | none => false
  | some publicKeyPem =>
    match p1363Verify publicKeyPem message signatureBytes with
    | Except.ok b => b
    | Except.error _ =>
      match derVerify publicKeyPem message signatureBytes with
      | Except.ok b => b
      | Except.error _ => false

/-- Model of the `verified` computation in `router.post` of
ussMessageRoutes.js lines 294-299: skip verification when no signature is
attached, otherwise call `verifyMessageSignature`. -/
def routeVerified (getSigningKey : String → Option String)
    (p1363Verify derVerify : String → String → List Byte → Except Unit Bool)
    (sender message : String) (signature : Option (List Byte)) : Bool :=
  match signature with
  | none => false
  | some sig => verifyMessageSignature getSigningKey p1363Verify derVerify sender message sig

/-! ## Hardened-session state machine
(server/services/ussService.js lines 179-375; routes/ussRoutes.js lines 166-204)

The mutable per-session database columns (`wrong_attempts`, `status`,
`locked_at`, the `uss_messages` rows and the appended `security_events`)
are collected in `SessState`.  `LockdownEnv` fixes the outcome of each
fallible collaborator call inside `activateLockdown` (zip creation, the
two emails, the message deletion); the code wraps the whole procedure in
a single `try/catch` whose catch logs one `USS_LOCKDOWN` event carrying an
error detail, while each per-recipient email failure is caught separately
and folded into one aggregate backup event. -/

inductive SessStatus
  | ACTIVE
  | LOCKED
  | DELETED
deriving DecidableEq

/-- Security events appended by the service, tagged with the details the
code serialises into the `details` JSON.  `lockdownError` stands for the
`USS_LOCKDOWN` event written by the catch branch (its details carry an
error message instead of a completion summary). -/
inductive SecEvent
  | ussCreated
  | accessDenied (attempts : Nat)
  | accessed
  | backupSent (emailsSent totalRecipients : Nat)
  | backupFailed (emailsSent totalRecipients : Nat)
  | dataWiped (messagesDeleted : Nat)
  | lockdownComplete
  | lockdownError
deriving DecidableEq

structure SessState where
  wrongAttempts : Nat
  status : SessStatus
  lockedAt : Bool
  messagesCount : Nat
  events : List SecEvent
  lockdownRuns : Nat
deriving DecidableEq

structure LockdownEnv where
  zipOk : Bool
  emailAPresent : Bool
  emailBPresent : Bool
  emailAOk : Bool
  emailBOk : Bool
  deleteOk : Bool
deriving DecidableEq

/-- Environment in which every collaborator call succeeds. -/
def allOkEnv : LockdownEnv := ⟨true, true, true, true, true, true⟩

/-- Model of `activateLockdown` (ussService.js lines 235-375).
`lockdownRuns` counts invocations.  A zip failure throws into the catch,
which logs one error event and returns; email failures are caught
per-recipient and summarised in a single `BACKUP_SENT`/`BACKUP_FAILED`
event; a deletion failure throws into the catch after the backup event;
on full success the messages are wiped, `DATA_WIPED` is logged, status is
set to `LOCKED` with `locked_at`, and the completion `USS_LOCKDOWN` event
is logged. -/
def activateLockdown (env : LockdownEnv) (s : SessState) : SessState :=
  let s0 : SessState := { s with lockdownRuns := s.lockdownRuns + 1 }
  if env.zipOk = false then
    { s0 with events := s0.events ++ [SecEvent.lockdownError] }
  else
    let total := (if env.emailAPresent then 1 else 0) + (if env.emailBPresent then 1 else 0)
    let sent := (if env.emailAPresent && env.emailAOk then 1 else 0) +
                (if env.emailBPresent && env.emailBOk then 1 else 0)
    let s1 : SessState := { s0 with events := s0.events ++
      [if 0 < sent then SecEvent.backupSent sent total else SecEvent.backupFailed sent total] }
    if env.deleteOk = false then
      { s1 with events := s1.events ++ [SecEvent.lockdownError] }
    else
      { s1 with
        messagesCount := 0,
        status := SessStatus.LOCKED,
        lockedAt := true,
        events := s1.events ++ [SecEvent.dataWiped s1.messagesCount, SecEvent.lockdownComplete] }

/-- Model of `incrementWrongAttempts` (ussService.js lines 179-210): read
the counter, add one, write it back, log `USS_ACCESS_DENIED`, and trigger
`activateLockdown` whenever the new count is at least 3.  There is no
check of the session's current status. -/
def incrementWrongAttempts (env : LockdownEnv) (s : SessState) : Nat × SessState :=
  let newAttempts := s.wrongAttempts + 1
  let s1 : SessState := { s with
    wrongAttempts := newAttempts
    events := s.events ++ [SecEvent.accessDenied newAttempts] }
  if 3 ≤ newAttempts then (newAttempts, activateLockdown env s1) else (newAttempts, s1)

/-- Model of `resetWrongAttempts` (ussService.js lines 216-229): zero the
counter and log `USS_ACCESSED`.  There is no check of the session's
current status. -/
def resetWrongAttempts (s : SessState) : SessState :=
  { s with wrongAttempts := 0, events := s.events ++ [SecEvent.accessed] }

/-- HTTP response of `POST /api/uss/:sessionId/verify`. -/
structure VerifyResponse where
  httpStatus : Nat
  success : Bool
  locked : Bool
  attemptsRemaining : Nat
deriving DecidableEq

/-- Model of `router.post` on `/:sessionId/verify` (ussRoutes.js lines
166-204): the recordAttempt transition.  On `success = true` it resets the
counter and answers 200/granted; on `success = false` it increments and
answers 403/locked when the new count is at least 3, else 200 with the
remaining attempts. -/
def recordAttempt (env : LockdownEnv) (s : SessState) (success : Bool) :
    SessState × VerifyResponse :=
  if success then
    (resetWrongAttempts s, ⟨200, true, false, 3⟩)
  else
    let r := incrementWrongAttempts env s
    if 3 ≤ r.1 then (r.2, ⟨403, false, true, 0⟩)
    else (r.2, ⟨200, false, false, 3 - r.1⟩)

/-! ## Session retrieval (ussService.js lines 86-127) -/

structure USSRow where
  session_id : Nat
  user_a : String
  user_b : String
  double_encrypted_key_a : String
  double_encrypted_key_b : String
  passphrase_hash : String
  salt : String
  iv_a : String
  iv_b : String
  wrong_attempts : Nat
  status : SessStatus
deriving DecidableEq

structure USSSessionView where
  sessionId : Nat
  userA : String
  userB : String
  doubleEncryptedKey : String
  passphraseHash : String
  salt : String
  iv : String
  wrongAttempts : Nat
  status : SessStatus
deriving DecidableEq

/-- Model of `getUSSSession`: select the row by id and return the view,
choosing key A and IV A when `requestingUser` equals `user_a` and key B
and IV B otherwise.  The function compares `requestingUser` only against
`user_a`; it never checks membership among the participants. -/
def getUSSSession (dbRows : Nat → Option USSRow) (sessionId : Nat)
    (requestingUser : String) : Option USSSessionView :=
  match dbRows sessionId with
  | none => none
  | some session =>
    some {
      sessionId := session.session_id
      userA := session.user_a
      userB := session.user_b
      doubleEncryptedKey :=
        if requestingUser = session.user_a then session.double_encrypted_key_a
        else session.double_encrypted_key_b
      passphraseHash := session.passphrase_hash
      salt := session.salt
      iv := if requestingUser = session.user_a then session.iv_a else session.iv_b
      wrongAttempts := session.wrong_attempts
      status := session.status }

/-! ## Passphrase strength validation (crypto.js lines 422-474) -/

/-- Character class of the special-character regex in
`validatePassphraseStrength`. -/
def isSpecialChar (c : Char) : Bool :=
  ['!', '@', '#', '$', '%', '^', '&', '*', '(', ')', '_', '+', '-', '=',
   '[', ']', Char.ofNat 123, Char.ofNat 125, ';', Char.ofNat 39, ':',
   Char.ofNat 34, Char.ofNat 92, '|', ',', '.', '<', '>', '/', '?'].contains c

def isDigitChar (c : Char) : Bool := '0' ≤ c && c ≤ '9'

def isUpperChar (c : Char) : Bool := 'A' ≤ c && c ≤ 'Z'

def isLowerChar (c : Char) : Bool := 'a' ≤ c && c ≤ 'z'

structure StrengthResult where
  valid : Bool
  strength : String
  score : Nat
  errors : List String
deriving DecidableEq

/-- Model of `validatePassphraseStrength`: score length and the four
character classes, collect the error messages in program order, and grade
the score into weak/medium/strong. -/
def validatePassphraseStrength (passphrase : String) : StrengthResult :=
  let len := passphrase.length
  let lenErrors : List String :=
    if len < 10 then ["Must be at least 10 characters"] else []
  let lenScore : Nat :=
    if len < 10 then 0
    else 20 + (if 15 ≤ len then 20 else 0) + (if 20 ≤ len then 10 else 0)
  let hasDigit := passphrase.data.any isDigitChar
  let digitErrors : List String :=
    if hasDigit then [] else ["Must contain at least one number"]
  let digitScore : Nat := if hasDigit then 15 else 0
  let hasSpecial := passphrase.data.any isSpecialChar
  let specialErrors : List String :=
    if hasSpecial then [] else ["Must contain at least one special character"]
  let specialScore : Nat := if hasSpecial then 15 else 0
  let hasUpper := passphrase.data.any isUpperChar
  let upperErrors : List String :=
    if hasUpper then [] else ["Must contain at least one uppercase letter"]
  let upperScore : Nat := if hasUpper then 10 else 0
  let hasLower := passphrase.data.any isLowerChar
  let lowerErrors : List String :=
    if hasLower then [] else ["Must contain at least one lowercase letter"]
  let lowerScore : Nat := if hasLower then 10 else 0
  let score := lenScore + digitScore + specialScore + upperScore + lowerScore
  let errors := lenErrors ++ digitErrors ++ specialErrors ++ upperErrors ++ lowerErrors
  let strength := if 80 ≤ score then "strong" else if 60 ≤ score then "medium" else "weak"
  { valid := errors.isEmpty, strength := strength, score := score, errors := errors }

/-! ## Scenario states shared by the state-machine claims -/

/-- A freshly created active hardened session holding five messages. -/
def freshSession : SessState := ⟨0, SessStatus.ACTIVE, false, 5, [], 0⟩

/-- One failed passphrase attempt through the verify route, with every
collaborator call succeeding. -/
def failStep (s : SessState) : SessState := (recordAttempt allOkEnv s false).1

/-- The session after three consecutive failed attempts (locked). -/
def lockedSession : SessState := failStep (failStep (failStep freshSession))

/-- The aggregate backup event `activateLockdown` logs for the two email
deliveries. -/
def backupEvent (env : LockdownEnv) : SecEvent :=
  let total := (if env.emailAPresent then 1 else 0) + (if env.emailBPresent then 1 else 0)
  let sent := (if env.emailAPresent && env.emailAOk then 1 else 0) +
              (if env.emailBPresent && env.emailBOk then 1 else 0)
  if 0 < sent then SecEvent.backupSent sent total else SecEvent.backupFailed sent total

/-- C1: the claim says that for an Active hardened session failed attempts
increment `wrongAttempts`, the third failure transitions Active → Locked
invoking the Lockdown Procedure exactly once, and no later `recordAttempt`
invokes it a second time.  The code violates the exactly-once part: the
route never checks the session status, and `incrementWrongAttempts`
triggers `activateLockdown` on every failed attempt whose new count is at
least 3, so a fourth failed call runs the Lockdown Procedure a second
time.  This theorem evaluates the model at the failing input: three
failures lock the session with one lockdown run, and the fourth failure
raises the run count to 2. -/
theorem c1_lockdown_reinvoked :
    (failStep freshSession).wrongAttempts = 1
    ∧ (failStep freshSession).status = SessStatus.ACTIVE
    ∧ (failStep (failStep freshSession)).wrongAttempts = 2
    ∧ (failStep (failStep freshSession)).status = SessStatus.ACTIVE
    ∧ lockedSession.wrongAttempts = 3
    ∧ lockedSession.status = SessStatus.LOCKED
    ∧ lockedSession.lockdownRuns = 1
    ∧ (failStep lockedSession).lockdownRuns = 2 := by
  decide

/-- C2: the claim says that once a session is Locked every `recordAttempt`
— with `success = true` as well as `false` — appends `SessionAccessDenied`,
returns "locked", and never resets `wrongAttempts`.  The code violates
this: the verify route never reads the session status, so a
`success = true` call on a locked session runs `resetWrongAttempts`,
which zeroes the counter, appends `USS_ACCESSED` (not
`USS_ACCESS_DENIED`), and answers 200 "Access granted".  This theorem
evaluates the model at the failing input. -/
theorem c2_locked_session_success_resets :
    lockedSession.status = SessStatus.LOCKED
    ∧ (recordAttempt allOkEnv lockedSession true).1.wrongAttempts = 0
    ∧ (recordAttempt allOkEnv lockedSession true).1.events
        = lockedSession.events ++ [SecEvent.accessed]
    ∧ (recordAttempt allOkEnv lockedSession true).2.success = true
    ∧ (recordAttempt allOkEnv lockedSession true).2.locked = false
    ∧ (recordAttempt allOkEnv lockedSession true).2.httpStatus = 200 := by
  decide

/-- C3 counterexample: the claim says the verifier checks exactly one
mandated wire encoding and never, after a failure on the first encoding,
silently retries under a second encoding.  In the code, when the
`ieee-p1363` verify call throws, the catch block retries with a plain
DER-mode verify, and that second attempt determines the returned outcome:
with identical inputs up to the DER verifier, the result flips with the
DER verdict. -/
theorem c3_der_fallback_counterexample :
    verifyMessageSignature (fun _ => some "PEM") (fun _ _ _ => Except.error ())
      (fun _ _ _ => Except.ok true) "alice" "message" [0] = true
    ∧ verifyMessageSignature (fun _ => some "PEM") (fun _ _ _ => Except.error ())
      (fun _ _ _ => Except.ok false) "alice" "message" [0] = false :=
  ⟨rfl, rfl⟩

/-- C3 amended: signature verification checks the raw/IEEE-P1363 encoding
first, and when the key is present and that check returns a verdict the
verdict is the result; but when the IEEE-P1363 call throws, the verifier
silently retries under ASN.1/DER and returns that verdict (or `false` if
the retry also throws) instead of failing loudly. -/
theorem c3_amended_fallback_behavior
    (getSigningKey : String → Option String)
    (p1363Verify derVerify : String → String → List Byte → Except Unit Bool)
    (sender message : String) (sig : List Byte) (pk : String)
    (hk : getSigningKey sender = some pk) :
    (∀ b, p1363Verify pk message sig = Except.ok b →
      verifyMessageSignature getSigningKey p1363Verify derVerify sender message sig = b)
    ∧ (p1363Verify pk message sig = Except.error () →
      verifyMessageSignature getSigningKey p1363Verify derVerify sender message sig =
        (match derVerify pk message sig with
         | Except.ok b => b
         | Except.error _ => false)) := by
  constructor
  · intro b hb
    simp [verifyMessageSignature, hk, hb]
  · intro hb
    simp [verifyMessageSignature, hk, hb]

/-- Witness for the amended C3 statement at concrete inputs. -/
theorem c3_amended_witness :
    verifyMessageSignature (fun _ => some "PEM") (fun _ _ _ => Except.error ())
      (fun _ _ _ => Except.ok true) "alice" "message" [] = true
    ∧ verifyMessageSignature (fun _ => some "PEM") (fun _ _ _ => Except.ok false)
      (fun _ _ _ => Except.ok true) "alice" "message" [] = false :=
  ⟨(c3_amended_fallback_behavior (fun _ => some "PEM") (fun _ _ _ => Except.error ())
      (fun _ _ _ => Except.ok true) "alice" "message" [] "PEM" rfl).2 rfl,
   (c3_amended_fallback_behavior (fun _ => some "PEM") (fun _ _ _ => Except.ok false)
      (fun _ _ _ => Except.ok true) "alice" "message" [] "PEM" rfl).1 false rfl⟩

/-- C4 counterexample: the claim says verification returns one of exactly
three outcomes Valid/Invalid/Unsigned, with a missing signing key mapped
to Unsigned, distinct from Invalid.  The code returns a bare boolean: a
missing key yields the same value `false` as a present key whose check
says the signature is invalid, so there is no third outcome and
missing-key is indistinguishable from Invalid. -/
theorem c4_no_tristate_counterexample :
    routeVerified (fun _ => none) (fun _ _ _ => Except.ok true)
      (fun _ _ _ => Except.ok true) "alice" "message" (some [0])
    = routeVerified (fun _ => some "PEM") (fun _ _ _ => Except.ok false)
      (fun _ _ _ => Except.ok false) "alice" "message" (some [0])
    ∧ routeVerified (fun _ => none) (fun _ _ _ => Except.ok true)
      (fun _ _ _ => Except.ok true) "alice" "message" (some [0]) = false :=
  ⟨rfl, rfl⟩

/-- C4 amended: for every verification request the route computes a
boolean and never throws (the model is a total function because every
throw in the code is caught and turned into `false`): with no signature
present the stored verdict is `false` without consulting the verifier;
with a missing signing key it is `false`; and with both present the
IEEE-P1363 verdict is returned when that call does not throw.  Unsigned
and Invalid are not distinguished in the outcome. -/
theorem c4_amended_boolean_outcomes
    (getSigningKey : String → Option String)
    (p1363Verify derVerify : String → String → List Byte → Except Unit Bool)
    (sender message : String) :
    routeVerified getSigningKey p1363Verify derVerify sender message none = false
    ∧ (getSigningKey sender = none → ∀ sig,
        routeVerified getSigningKey p1363Verify derVerify sender message (some sig) = false)
    ∧ (∀ pk sig b, getSigningKey sender = some pk →
        p1363Verify pk message sig = Except.ok b →
        routeVerified getSigningKey p1363Verify derVerify sender message (some sig) = b) := by
  refine ⟨rfl, ?_, ?_⟩
  · intro h sig
    simp [routeVerified, verifyMessageSignature, h]
  · intro pk sig b hk hb
    simp [routeVerified, verifyMessageSignature, hk, hb]

/-- Witness for the amended C4 statement at concrete inputs. -/
theorem c4_amended_witness :
    routeVerified (fun _ => none) (fun _ _ _ => Except.ok true)
      (fun _ _ _ => Except.ok true) "alice" "message" (some [7]) = false
    ∧ routeVerified (fun _ => some "PEM") (fun _ _ _ => Except.ok true)
      (fun _ _ _ => Except.error ()) "alice" "message" (some [7]) = true :=
  ⟨(c4_amended_boolean_outcomes (fun _ => none) (fun _ _ _ => Except.ok true)
      (fun _ _ _ => Except.ok true) "alice" "message").2.1 rfl [7],
   (c4_amended_boolean_outcomes (fun _ => some "PEM") (fun _ _ _ => Except.ok true)
      (fun _ _ _ => Except.error ()) "alice" "message").2.2 "PEM" [7] true rfl rfl⟩

/-- C5: the claim says the verifier produced by `hashPassphrase` is not
sufficient on its own to unwrap the passphrase layer.  The code violates
this: `hashPassphrase` and `derivePassphraseKey` run the identical
PBKDF2-HMAC-SHA-512 derivation (same salt, 310000 iterations, 256-bit
output), so the stored verifier is byte-for-byte the AES-256-GCM key of
the passphrase layer.  Whoever holds the verifier can decode it from
base64 and decrypt directly: for every passphrase, salt, ciphertext and
IV, `unwrapWithVerifierOnly` — which receives only the verifier, never the
passphrase — computes exactly what `decryptWithPassphrase` computes with
the passphrase. -/
theorem c5_verifier_unwraps_key
    (pbkdf2Sha512 : String → List Byte → Nat → Nat → List Byte)
    (aesGcmDecrypt : List Byte → List Byte → List Byte → Option (List Byte))
    (passphrase : String) (salt : List Byte) (encryptedBase64 ivBase64 : String) :
    unwrapWithVerifierOnly aesGcmDecrypt (hashPassphrase pbkdf2Sha512 passphrase salt)
      encryptedBase64 ivBase64
    = decryptWithPassphrase pbkdf2Sha512 aesGcmDecrypt encryptedBase64 ivBase64
        passphrase salt := by
  unfold unwrapWithVerifierOnly decryptWithPassphrase hashPassphrase derivePassphraseKey
  rw [base64_roundtrip]

/-- C6 counterexample: the claim says the lockdown steps continue even if
a later step fails, each step being logged as a Security Event.  In the
code the whole procedure sits in one `try/catch`: when the archive (zip)
step throws, control jumps to the catch, which logs a single error event
— the messages are NOT deleted, the session is NOT marked Locked, and
neither the export nor the skipped steps get their own events. -/
theorem c6_archive_failure_aborts_counterexample :
    (activateLockdown ⟨false, true, true, true, true, true⟩ freshSession).messagesCount = 5
    ∧ (activateLockdown ⟨false, true, true, true, true, true⟩ freshSession).status
        = SessStatus.ACTIVE
    ∧ (activateLockdown ⟨false, true, true, true, true, true⟩ freshSession).lockedAt = false
    ∧ (activateLockdown ⟨false, true, true, true, true, true⟩ freshSession).events
        = [SecEvent.lockdownError] := by
  decide

/-- C6 amended: failure of the notification step never prevents the later
steps — whenever the archive and deletion collaborator calls succeed, then
whatever the outcome of the two email deliveries, the session messages are
destroyed, the session is marked Locked with its lockdown timestamp, and
the aggregate notification outcome, the data wipe and the lockdown
completion are each logged as Security Events; however a failure of the
archive or deletion step itself aborts the remaining steps with a single
error event, and a delivery failure to one participant is recorded only
inside the aggregate backup event rather than as a distinct failure
event. -/
theorem c6_amended_notification_failure_harmless
    (env : LockdownEnv) (s : SessState)
    (hzip : env.zipOk = true) (hdel : env.deleteOk = true) :
    (activateLockdown env s).status = SessStatus.LOCKED
    ∧ (activateLockdown env s).lockedAt = true
    ∧ (activateLockdown env s).messagesCount = 0
    ∧ (activateLockdown env s).lockdownRuns = s.lockdownRuns + 1
    ∧ (activateLockdown env s).events = s.events ++
        [backupEvent env, SecEvent.dataWiped s.messagesCount, SecEvent.lockdownComplete] := by
  unfold activateLockdown backupEvent
  simp [hzip, hdel]

/-- Witness for the amended C6 statement: both email deliveries fail, yet
the messages are wiped, the session is locked, and the backup failure, the
wipe and the completion are logged. -/
theorem c6_amended_witness :
    (activateLockdown ⟨true, true, true, false, false, true⟩ freshSession).status
        = SessStatus.LOCKED
    ∧ (activateLockdown ⟨true, true, true, false, false, true⟩ freshSession).lockedAt = true
    ∧ (activateLockdown ⟨true, true, true, false, false, true⟩ freshSession).messagesCount = 0
    ∧ (activateLockdown ⟨true, true, true, false, false, true⟩ freshSession).lockdownRuns
        = freshSession.lockdownRuns + 1
    ∧ (activateLockdown ⟨true, true, true, false, false, true⟩ freshSession).events
        = freshSession.events ++ [backupEvent ⟨true, true, true, false, false, true⟩,
            SecEvent.dataWiped freshSession.messagesCount, SecEvent.lockdownComplete] :=
  c6_amended_notification_failure_harmless ⟨true, true, true, false, false, true⟩
    freshSession rfl rfl

/-- C7: for every 256-bit session key, sequence number and plaintext,
decrypting the blob produced by `encryptMessage` with the same key and
sequence number returns the original plaintext.  The theorem holds for
every HMAC function and every AES-GCM pair satisfying the AEAD inverse
law, and for the 12-byte IV drawn at encryption time: the repository's
framing (HMAC-derived per-message key, IV ‖ ciphertext concatenation,
base64 transport coding, split at byte 12) is lossless. -/
theorem c7_message_roundtrip
    (hmacSha256 : List Byte → List Byte → List Byte)
    (aesGcmEncrypt : List Byte → List Byte → List Byte → List Byte)
    (aesGcmDecrypt : List Byte → List Byte → List Byte → Option (List Byte))
    (sessionKeyRaw : List Byte) (msgNo : Nat) (plaintext iv : List Byte)
    (hiv : iv.length = 12)
    (hgcm : ∀ key iv m, aesGcmDecrypt key iv (aesGcmEncrypt key iv m) = some m) :
    decryptMessage hmacSha256 aesGcmDecrypt sessionKeyRaw msgNo
      (encryptMessage hmacSha256 aesGcmEncrypt sessionKeyRaw msgNo plaintext iv)
    = some plaintext := by
  unfold decryptMessage encryptMessage
  simp only [base64_roundtrip]
  rw [← hiv, List.take_left, List.drop_left, hgcm]

/-- Witness for C7 at concrete inputs (sequence number 1000, plaintext
bytes of "hi", an all-zero IV, and an AEAD pair satisfying the inverse
law). -/
theorem c7_message_roundtrip_witness :
    decryptMessage (fun _ _ => List.replicate 32 0) (fun _ _ c => some c)
      (List.replicate 32 1) 1000
      (encryptMessage (fun _ _ => List.replicate 32 0) (fun _ _ m => m)
        (List.replicate 32 1) 1000 [104, 105] (List.replicate 12 0))
    = some [104, 105] :=
  c7_message_roundtrip (fun _ _ => List.replicate 32 0) (fun _ _ m => m)
    (fun _ _ c => some c) (List.replicate 32 1) 1000 [104, 105]
    (List.replicate 12 0) (by simp) (fun _ _ _ => rfl)

/-- C8: for every pair of non-empty identity strings, session-key
derivation is order-independent — the code sorts the two usernames,
joins them with the fixed separator `:` and hashes, so swapping the
arguments yields the same digest for every hash function. -/
theorem c8_getSessionKey_comm (sha256 : String → List Byte)
    (userA userB : String) (_hA : userA ≠ "") (_hB : userB ≠ "") :
    getSessionKey sha256 userA userB = getSessionKey sha256 userB userA := by
  unfold getSessionKey
  rcases le_or_lt userA userB with h | h
  · rcases eq_or_lt_of_le h with rfl | hlt
    · rfl
    · rw [if_pos h, if_neg (not_le.mpr hlt)]
  · rw [if_neg (not_le.mpr h), if_pos h.le]

/-- Witness for C8 at the concrete identities "alice" and "bob". -/
theorem c8_getSessionKey_comm_witness :
    getSessionKey (fun s => s.data.map charByte) "alice" "bob"
    = getSessionKey (fun s => s.data.map charByte) "bob" "alice" :=
  c8_getSessionKey_comm (fun s => s.data.map charByte) "alice" "bob"
    (by decide) (by decide)

/-- C9: for every stored hardened session and every requesting user whose
name differs from `user_a` — including a user who is neither participant —
`getUSSSession` returns the full record with participant B's
double-encrypted key and IV together with the passphrase hash and salt;
nothing checks that the requesting user is one of the two participants. -/
theorem c9_getUSSSession_no_participant_check
    (dbRows : Nat → Option USSRow) (sessionId : Nat) (row : USSRow)
    (requestingUser : String)
    (hdb : dbRows sessionId = some row)
    (hne : requestingUser ≠ row.user_a) :
    getUSSSession dbRows sessionId requestingUser = some {
      sessionId := row.session_id
      userA := row.user_a
      userB := row.user_b
      doubleEncryptedKey := row.double_encrypted_key_b
      passphraseHash := row.passphrase_hash
      salt := row.salt
      iv := row.iv_b
      wrongAttempts := row.wrong_attempts
      status := row.status } := by
  unfold getUSSSession
  rw [hdb]
  simp [hne]

/-- Example row for the C9 witness. -/
def exampleRow : USSRow :=
  ⟨1, "alice", "bob", "keyA", "keyB", "hash", "salt", "ivA", "ivB", 0, SessStatus.ACTIVE⟩

/-- Witness for C9: the outsider "mallory", who is neither participant,
receives participant B's key material along with the passphrase hash and
salt. -/
theorem c9_getUSSSession_witness :
    getUSSSession (fun i => if i = 1 then some exampleRow else none) 1 "mallory"
    = some ⟨1, "alice", "bob", "keyB", "hash", "salt", "ivB", 0, SessStatus.ACTIVE⟩ :=
  c9_getUSSSession_no_participant_check (fun i => if i = 1 then some exampleRow else none)
    1 exampleRow "mallory" rfl (by decide)

/-- C10: for every passphrase `validatePassphraseStrength` reports a score
of at most 100, and whenever it reports `valid = true` (all five checks
pass) the score is at least 70, so the reported strength of every accepted
passphrase is "medium" or "strong", never "weak". -/
theorem c10_strength_bounds (passphrase : String) :
    (validatePassphraseStrength passphrase).score ≤ 100
    ∧ ((validatePassphraseStrength passphrase).valid = true →
        70 ≤ (validatePassphraseStrength passphrase).score
        ∧ ((validatePassphraseStrength passphrase).strength = "medium"
           ∨ (validatePassphraseStrength passphrase).strength = "strong")) := by
  simp only [validatePassphraseStrength]
  split_ifs <;>
    refine ⟨by omega, fun hv => ?_⟩ <;>
    simp only [List.cons_append, List.nil_append, List.append_nil, List.isEmpty_cons,
      List.isEmpty_nil] at hv <;>
    first
      | exact Bool.noConfusion hv
      | exact (by omega : False).elim
      | exact ⟨by omega, Or.inl rfl⟩
      | exact ⟨by omega, Or.inr rfl⟩

/-- Witness for C10 at a concrete accepted passphrase. -/
theorem c10_strength_bounds_witness :
    (validatePassphraseStrength "Aa1!aaaaaa").score ≤ 100
    ∧ (70 ≤ (validatePassphraseStrength "Aa1!aaaaaa").score
       ∧ ((validatePassphraseStrength "Aa1!aaaaaa").strength = "medium"
          ∨ (validatePassphraseStrength "Aa1!aaaaaa").strength = "strong")) :=
  ⟨(c10_strength_bounds "Aa1!aaaaaa").1,
   (c10_strength_bounds "Aa1!aaaaaa").2 (by decide)⟩

end SecureChat
